import Mathlib

/-!
Verification of the drive-consultation backend (src/index.js).

The development shallowly embeds the three HTTP handlers of the backend:
`GET /api/files`, `GET /api/files/:folderId` and `POST /api/consult`.
External collaborators (the Drive storage API, the third-party document
parsers and the generative-model API) are modelled as oracle functions
passed to the handlers; everything the source file itself computes
(validation, query construction, extractor dispatch, the per-file
try/catch loop, context/prompt assembly, the candidate check and the
response shaping) is embedded as executable Lean definitions.
-/

/-- The single-quote character, written by code point to keep string
literals quote-free. The JS source interpolates folder ids between two
of these in Drive query strings. -/
def quoteChar : Char := Char.ofNat 39

/-- A one-character string holding `quoteChar`. -/
def quoteStr : String := String.mk [quoteChar]

/-- One item of a Drive listing, as selected by the handlers with
`fields: files(id, name, mimeType)`. -/
structure DriveFile where
  id : String
  name : String
  mimeType : String
deriving DecidableEq

def mtText : String := "text/plain"
def mtGoogleDoc : String := "application/vnd.google-apps.document"
def mtPdf : String := "application/pdf"
def mtDocx : String := "application/vnd.openxmlformats-officedocument.wordprocessingml.document"
def mtPptx : String := "application/vnd.openxmlformats-officedocument.presentationml.presentation"
def mtDoc : String := "application/msword"
def mtFolder : String := "application/vnd.google-apps.folder"

/-- One entry of the `supportedMimeTypes` array of the consult handler,
for example `mimeType=<quote>text/plain<quote>`. -/
def mimeClause (mt : String) : String := "mimeType=" ++ quoteStr ++ mt ++ quoteStr

/-- The `supportedMimeTypes` array of the consult handler, in source
order: text, Google Doc, PDF, DOCX, PPTX, legacy DOC. -/
def supportedMimeTypes : List String :=
  [mimeClause mtText, mimeClause mtGoogleDoc, mimeClause mtPdf,
   mimeClause mtDocx, mimeClause mtPptx, mimeClause mtDoc]

/-- The Drive query built by both browsing handlers:
the folder id is interpolated verbatim between two single quotes. -/
def browseQuery (folderId : String) : String :=
  quoteStr ++ folderId ++ quoteStr ++ " in parents and trashed = false"

/-- The Drive query built by the consult handler: verbatim interpolation
of the folder id plus the joined MIME-type allowlist. -/
def consultQuery (folderId : String) : String :=
  quoteStr ++ folderId ++ quoteStr ++ " in parents and (" ++
    String.intercalate " or " supportedMimeTypes ++ ") and trashed = false"

/-- The parameters the handlers pass to `drive.files.list`. -/
structure ListParams where
  q : String
  fields : String
  orderBy : Option String
deriving DecidableEq

def filesFields : String := "files(id, name, mimeType)"

/-- `drive.files.list` parameters of `GET /api/files` (root folder id
from configuration): query, fields, and `orderBy: folder, name`. -/
def rootListParams (rootFolderId : String) : ListParams :=
  ⟨browseQuery rootFolderId, filesFields, some "folder, name"⟩

/-- `drive.files.list` parameters of `GET /api/files/:folderId`. -/
def subfolderListParams (folderId : String) : ListParams :=
  ⟨browseQuery folderId, filesFields, some "folder, name"⟩

/-- `drive.files.list` parameters of the consult handler: query and
fields only — the source passes no `orderBy` for this call. -/
def consultListParams (folderId : String) : ListParams :=
  ⟨consultQuery folderId, filesFields, none⟩

/-- Response body of the two browsing endpoints: either the JSON array
`response.data.files` (possibly absent) or an error object. -/
inductive BrowseBody where
  | files (fs : Option (List DriveFile))
  | errMsg (e : String)
deriving DecidableEq

/-- An HTTP response of a browsing endpoint: status code and JSON body. -/
structure BrowseResp where
  status : Nat
  body : BrowseBody
deriving DecidableEq

/-- The `GET /api/files` handler: lists children of the configured root
folder and forwards the backend list verbatim; 500 on backend failure. -/
def rootFilesHandler (rootFolderId : String)
    (driveList : ListParams → Except Unit (Option (List DriveFile))) : BrowseResp :=
  match driveList (rootListParams rootFolderId) with
  | .ok fs => ⟨200, .files fs⟩
  | .error _ => ⟨500, .errMsg "Failed to fetch files."⟩

/-- The `GET /api/files/:folderId` handler: same as the root handler but
for a path-supplied folder id. -/
def subFilesHandler (folderId : String)
    (driveList : ListParams → Except Unit (Option (List DriveFile))) : BrowseResp :=
  match driveList (subfolderListParams folderId) with
  | .ok fs => ⟨200, .files fs⟩
  | .error _ => ⟨500, .errMsg "Failed to fetch files."⟩

/-- JS truthiness check `!x` on an optional string field of a parsed
JSON body: true when the field is absent or the empty string. -/
def isFalsy : Option String → Bool
  | none => true
  | some s => s.isEmpty

/-- Oracles for the external calls made per file inside the consult
loop: Drive export of a Google Doc to plain text, raw media download
(modelled as the decoded byte content), and the three third-party
extractors (mammoth raw text, pdf-parse text, pptx2json slide raws). -/
structure DriveOracles where
  exportDoc : String → Except Unit String
  fetchMedia : String → Except Unit String
  mammothRawText : String → Except Unit String
  pdfText : String → Except Unit String
  pptxSlides : String → Except Unit (List String)

/-- The body of the per-file try block of the consult handler: Google
Docs use the export path; every other type first downloads the raw
media, then dispatches on the MIME type exactly as the source switch
does. The legacy DOC case and a non-matching MIME type leave
`fileContent` as the empty string. -/
def extractFileContent (o : DriveOracles) (file : DriveFile) : Except Unit String :=
  if file.mimeType = mtGoogleDoc then
    o.exportDoc file.id
  else
    match o.fetchMedia file.id with
    | .error e => .error e
    | .ok buf =>
      if file.mimeType = mtDocx then o.mammothRawText buf
      else if file.mimeType = mtPdf then o.pdfText buf
      else if file.mimeType = mtPptx then
        match o.pptxSlides buf with
        | .ok raws => .ok (String.intercalate "\n" raws)
        | .error e => .error e
      else if file.mimeType = mtDoc then .ok ""
      else if file.mimeType = mtText then .ok buf
      else .ok ""

/-- One labelled block of the aggregated context: either the content
block appended on success or the placeholder appended by the per-file
catch. -/
inductive Block where
  | contentBlock (name : String) (content : String)
  | errorBlock (name : String)
deriving DecidableEq

/-- Name of the file a block was produced for. -/
def Block.fileName : Block → String
  | .contentBlock n _ => n
  | .errorBlock n => n

/-- Whether a block is the placeholder appended by the per-file catch. -/
def Block.isError : Block → Bool
  | .contentBlock _ _ => false
  | .errorBlock _ => true

/-- The exact text the consult loop appends to `context` for a block. -/
def Block.render : Block → String
  | .contentBlock n c => "--- Content from file: " ++ n ++ " ---\n" ++ c ++ "\n\n"
  | .errorBlock n => "--- Could not read content from file: " ++ n ++ " ---\n\n"

/-- One iteration of the consult loop for one file: the try/catch either
appends the content block or, on any fetch/extract failure, the
placeholder block. -/
def fileBlock (o : DriveOracles) (file : DriveFile) : Block :=
  match extractFileContent o file with
  | .ok c => .contentBlock file.name c
  | .error _ => .errorBlock file.name

/-- The sequence of blocks the consult loop appends, in listing order. -/
def contextBlocks (o : DriveOracles) (files : List DriveFile) : List Block :=
  files.map (fileBlock o)

/-- The `context` string after the consult loop: the fold of
`context = context + block` over the listed files, starting empty. -/
def buildContext (o : DriveOracles) (files : List DriveFile) : String :=
  files.foldl (fun ctx f => ctx ++ (fileBlock o f).render) ""

/-- The fixed answer returned when the filtered listing is empty or
absent. -/
def noSupportedFilesMsg : String :=
  "I couldn" ++ quoteStr ++
    "t find any supported files (Docs, PDF, DOCX, PPTX, or text) in that folder to read."

/-- The prompt template of the consult handler, with the literal user
question in double quotes and the aggregated context appended. -/
def buildPrompt (question context : String) : String :=
  "Based on the following documents, please answer the user" ++ quoteStr ++
    "s question. If you cannot find the answer, say so.\n        User Question: \"" ++
    question ++ "\"\n        Documents:\n        " ++ context

/-- One part of a candidate content object; `text` may be absent. -/
structure GenPart where
  text : Option String
deriving DecidableEq

/-- A candidate content object; the `parts` array may be absent. -/
structure GenContent where
  parts : Option (List GenPart)
deriving DecidableEq

/-- One model candidate; its `content` may be absent. -/
structure GenCandidate where
  content : Option GenContent
deriving DecidableEq

/-- The model response object; its `candidates` array may be absent. -/
structure GenResponse where
  candidates : Option (List GenCandidate)
deriving DecidableEq

/-- Lines 172-178 of the source: the validity check
`response and candidates nonempty and candidates[0].content`, followed
by the access `candidates[0].content.parts[0].text`. A failed check is
the thrown error; a missing or empty `parts` array makes the access
itself throw. Both surface as `Except.error` and are caught by the
request-level catch. A present first part yields its (optional) text. -/
def extractAnswer (response : Option GenResponse) : Except Unit (Option String) :=
  match response with
  | none => .error ()
  | some r =>
    match r.candidates with
    | none => .error ()
    | some [] => .error ()
    | some (c :: _) =>
      match c.content with
      | none => .error ()
      | some content =>
        match content.parts with
        | none => .error ()
        | some [] => .error ()
        | some (p :: _) => .ok p.text

/-- Response body of the consult endpoint: `{answer}` (the value may be
absent when the first part has no text) or `{error}`. -/
inductive ConsultBody where
  | answer (a : Option String)
  | errMsg (e : String)
deriving DecidableEq

/-- An HTTP response of the consult endpoint. -/
structure ConsultResp where
  status : Nat
  body : ConsultBody
deriving DecidableEq

/-- Outcome of one consult request: the HTTP response plus two
instrumentation flags recording whether the storage listing call and the
model call were reached on that control path. -/
structure ConsultOutcome where
  resp : ConsultResp
  listCalled : Bool
  modelCalled : Bool
deriving DecidableEq

/-- The `POST /api/consult` handler. Control flow follows the source:
falsy-field validation to 400; listing (absent or empty list
short-circuits to the fixed answer); the per-file loop; the prompt; the
model call; the candidate check; and a request-level catch mapping every
thrown error to 500 with the generic message. -/
def consultHandler (folderId question : Option String)
    (driveList : ListParams → Except Unit (Option (List DriveFile)))
    (o : DriveOracles)
    (modelCall : String → Except Unit (Option GenResponse)) : ConsultOutcome :=
  if isFalsy folderId || isFalsy question then
    ⟨⟨400, .errMsg "folderId and question are required."⟩, false, false⟩
  else
    match driveList (consultListParams (folderId.getD "")) with
    | .error _ => ⟨⟨500, .errMsg "Failed to consult Gemini."⟩, true, false⟩
    | .ok none => ⟨⟨200, .answer (some noSupportedFilesMsg)⟩, true, false⟩
    | .ok (some files) =>
      if files.isEmpty then
        ⟨⟨200, .answer (some noSupportedFilesMsg)⟩, true, false⟩
      else
        match modelCall (buildPrompt (question.getD "") (buildContext o files)) with
        | .error _ => ⟨⟨500, .errMsg "Failed to consult Gemini."⟩, true, true⟩
        | .ok response =>
          match extractAnswer response with
          | .ok ans => ⟨⟨200, .answer ans⟩, true, true⟩
          | .error _ => ⟨⟨500, .errMsg "Failed to consult Gemini."⟩, true, true⟩

/-- Whether a listed item is a folder. -/
def isFolder (f : DriveFile) : Bool := f.mimeType = mtFolder

/-- Boolean lexicographic order on character lists, used to state the
alphabetical part of the `folder, name` ordering. -/
def charListLE : List Char → List Char → Bool
  | [], _ => true
  | _ :: _, [] => false
  | a :: as, b :: bs => if a = b then charListLE as bs else decide (a < b)

/-- Alphabetical comparison of file names. -/
def nameLE (a b : String) : Bool := charListLE a.toList b.toList

/-- The pairwise constraint of the `folder, name` ordering: a folder
never follows a file, and items of the same kind are alphabetical. -/
def fileLE (a b : DriveFile) : Bool :=
  (isFolder a && !isFolder b) || ((isFolder a == isFolder b) && nameLE a.name b.name)

/-- A listing ordered with folders before files, then alphabetically by
name: every adjacent pair satisfies `fileLE`. -/
def sortedByFolderName : List DriveFile → Bool
  | [] => true
  | [_] => true
  | a :: b :: rest => fileLE a b && sortedByFolderName (b :: rest)

/-- Characters of a string strictly before its first single quote,
after dropping everything up to and including a leading delimiter:
helper for reading the quoted literal a Drive query denotes. -/
def takeUntilQuote : List Char → List Char
  | [] => []
  | c :: cs => if c = quoteChar then [] else c :: takeUntilQuote cs

/-- Drops characters up to and including the first single quote. -/
def dropThroughQuote : List Char → List Char
  | [] => []
  | c :: cs => if c = quoteChar then cs else dropThroughQuote cs

/-- Modelled from the spec: the quoted literal a storage-backend query
parser reads as the parent folder id — the text between the first single
quote of the query and the next one. The backend itself is an external
collaborator; only this tokenisation convention is modelled. -/
def firstQuoted (s : String) : String :=
  String.mk (takeUntilQuote (dropThroughQuote s.toList))

/-- A listing oracle that always fails. -/
def stubList : ListParams → Except Unit (Option (List DriveFile)) :=
  fun _ => Except.error ()

/-- A listing oracle that always returns the empty file array. -/
def stubListEmpty : ListParams → Except Unit (Option (List DriveFile)) :=
  fun _ => Except.ok (some [])

/-- Per-file oracles that always fail. -/
def stubOracles : DriveOracles :=
  ⟨fun _ => Except.error (), fun _ => Except.error (), fun _ => Except.error (),
   fun _ => Except.error (), fun _ => Except.error ()⟩

/-- A model oracle that always fails. -/
def stubModel : String → Except Unit (Option GenResponse) :=
  fun _ => Except.error ()

/-- Claim C5: a consult request missing `folderId` or missing `question`
is answered 400 with the error body, and neither the storage listing nor
the model backend is called on that path. -/
theorem consult_missing_field_gives_400 (folderId question : Option String)
    (driveList : ListParams → Except Unit (Option (List DriveFile)))
    (o : DriveOracles) (modelCall : String → Except Unit (Option GenResponse))
    (h : folderId = none ∨ question = none) :
    consultHandler folderId question driveList o modelCall =
      ⟨⟨400, .errMsg "folderId and question are required."⟩, false, false⟩ := by
  unfold consultHandler
  rcases h with h | h <;> subst h <;> simp [isFalsy]

/-- Witness for C5 at a concrete request with no `folderId`. -/
theorem consult_missing_field_gives_400_witness :
    consultHandler none (some "what is this") stubList stubOracles stubModel =
      ⟨⟨400, ConsultBody.errMsg "folderId and question are required."⟩, false, false⟩ :=
  consult_missing_field_gives_400 none (some "what is this") stubList stubOracles
    stubModel (Or.inl rfl)

/-- Claim C9: a consult request whose `folderId` or `question` is the
empty string is rejected exactly like a missing field — 400 with the
same error body, before any storage or model call. -/
theorem consult_empty_string_field_gives_400 (folderId question : Option String)
    (driveList : ListParams → Except Unit (Option (List DriveFile)))
    (o : DriveOracles) (modelCall : String → Except Unit (Option GenResponse))
    (h : folderId = some "" ∨ question = some "") :
    consultHandler folderId question driveList o modelCall =
      ⟨⟨400, .errMsg "folderId and question are required."⟩, false, false⟩ := by
  unfold consultHandler
  rcases h with h | h <;> subst h <;>
    simp [isFalsy, show ("" : String).isEmpty = true from rfl]

/-- Witness for C9 at a concrete request with an empty `folderId`. -/
theorem consult_empty_string_field_gives_400_witness :
    consultHandler (some "") (some "what is this") stubList stubOracles stubModel =
      ⟨⟨400, ConsultBody.errMsg "folderId and question are required."⟩, false, false⟩ :=
  consult_empty_string_field_gives_400 (some "") (some "what is this") stubList
    stubOracles stubModel (Or.inl rfl)

/-- Claim C2: when the filtered listing of the consult handler yields no
files (an empty array, or an absent files field), the handler returns
200 with the fixed no-supported-files answer, and the model oracle is
never invoked: the outcome has `modelCalled = false` and is the same for
every model oracle. -/
theorem consult_empty_listing_skips_model (folderId question : Option String)
    (driveList : ListParams → Except Unit (Option (List DriveFile)))
    (o : DriveOracles) (modelCall : String → Except Unit (Option GenResponse))
    (hf : isFalsy folderId = false) (hq : isFalsy question = false)
    (hlist : driveList (consultListParams (folderId.getD "")) = .ok (some []) ∨
      driveList (consultListParams (folderId.getD "")) = .ok none) :
    consultHandler folderId question driveList o modelCall =
      ⟨⟨200, .answer (some noSupportedFilesMsg)⟩, true, false⟩ := by
  unfold consultHandler
  rcases hlist with h | h <;> simp [hf, hq, h]

/-- Witness for C2 at a concrete request over an empty folder, using the
always-failing model oracle: the fixed answer is returned and the model
flag stays false. -/
theorem consult_empty_listing_skips_model_witness :
    consultHandler (some "folderA") (some "what is this") stubListEmpty stubOracles
      stubModel =
      ⟨⟨200, ConsultBody.answer (some noSupportedFilesMsg)⟩, true, false⟩ :=
  consult_empty_listing_skips_model (some "folderA") (some "what is this")
    stubListEmpty stubOracles stubModel rfl rfl (Or.inl rfl)

/-- A concrete plain-text file used in witnesses. -/
def fileTxt : DriveFile := ⟨"idT", "a.txt", mtText⟩

/-- A concrete PDF file used in witnesses. -/
def filePdf : DriveFile := ⟨"idP", "b.pdf", mtPdf⟩

/-- A concrete two-file listing used in witnesses. -/
def demoFiles : List DriveFile := [fileTxt, filePdf]

/-- Per-file oracles for witnesses: the media download fails for the
PDF file and returns text content for every other id; the extractors
succeed. -/
def demoOracles : DriveOracles :=
  ⟨fun _ => Except.error (),
   fun id => if id = "idP" then Except.error () else Except.ok "hello world",
   fun b => Except.ok b, fun b => Except.ok b, fun _ => Except.ok []⟩

/-- A listing oracle returning the two-file demo listing. -/
def demoList : ListParams → Except Unit (Option (List DriveFile)) :=
  fun _ => Except.ok (some demoFiles)

/-- A model response with an empty candidates array. -/
def emptyCandResponse : GenResponse := ⟨some []⟩

/-- A model oracle that always returns the empty-candidates response. -/
def demoModelEmpty : String → Except Unit (Option GenResponse) :=
  fun _ => Except.ok (some emptyCandResponse)

/-- Claim C3: when the model backend returns a response with no usable
candidate — an absent or empty candidates array, or a first candidate
without content — the consult handler answers 500 with the generic
error, for every listing and every per-file oracle, hence regardless of
how many documents were aggregated. -/
theorem consult_no_candidate_gives_500 (folderId question : Option String)
    (driveList : ListParams → Except Unit (Option (List DriveFile)))
    (o : DriveOracles) (modelCall : String → Except Unit (Option GenResponse))
    (files : List DriveFile) (r : GenResponse)
    (hf : isFalsy folderId = false) (hq : isFalsy question = false)
    (hlist : driveList (consultListParams (folderId.getD "")) = .ok (some files))
    (hne : files ≠ [])
    (hmodel : modelCall (buildPrompt (question.getD "") (buildContext o files)) =
      .ok (some r))
    (hcand : r.candidates = none ∨ r.candidates = some [] ∨
      ∃ c rest, r.candidates = some (c :: rest) ∧ c.content = none) :
    consultHandler folderId question driveList o modelCall =
      ⟨⟨500, .errMsg "Failed to consult Gemini."⟩, true, true⟩ := by
  unfold consultHandler
  rcases hcand with h | h | ⟨c, rest, h, hc⟩
  · simp [hf, hq, hlist, hne, hmodel, extractAnswer, h]
  · simp [hf, hq, hlist, hne, hmodel, extractAnswer, h]
  · simp [hf, hq, hlist, hne, hmodel, extractAnswer, h, hc]

/-- Witness for C3: a concrete consult over the two-file demo folder
where the model returns an empty candidates array ends in the generic
500 error. -/
theorem consult_no_candidate_gives_500_witness :
    consultHandler (some "folderA") (some "what is this") demoList demoOracles
      demoModelEmpty =
      ⟨⟨500, ConsultBody.errMsg "Failed to consult Gemini."⟩, true, true⟩ :=
  consult_no_candidate_gives_500 (some "folderA") (some "what is this") demoList
    demoOracles demoModelEmpty demoFiles emptyCandResponse rfl rfl rfl
    (by decide) rfl (Or.inr (Or.inl rfl))

/-- A model response whose only candidate has content with an empty
parts array. -/
def emptyPartsResponse : GenResponse := ⟨some [⟨some ⟨some []⟩⟩]⟩

/-- A model oracle that always returns the empty-parts response. -/
def demoModelEmptyParts : String → Except Unit (Option GenResponse) :=
  fun _ => Except.ok (some emptyPartsResponse)

/-- Claim C10: when the candidate check passes — candidates nonempty and
the first candidate has a content object — but that content has a
missing or empty parts array, the access of the first part throws; the
request-level catch still produces the 500 response with the generic
error body, never an unhandled crash. -/
theorem consult_empty_parts_gives_500 (folderId question : Option String)
    (driveList : ListParams → Except Unit (Option (List DriveFile)))
    (o : DriveOracles) (modelCall : String → Except Unit (Option GenResponse))
    (files : List DriveFile) (r : GenResponse) (c : GenCandidate)
    (rest : List GenCandidate) (ct : GenContent)
    (hf : isFalsy folderId = false) (hq : isFalsy question = false)
    (hlist : driveList (consultListParams (folderId.getD "")) = .ok (some files))
    (hne : files ≠ [])
    (hmodel : modelCall (buildPrompt (question.getD "") (buildContext o files)) =
      .ok (some r))
    (hcand : r.candidates = some (c :: rest))
    (hcontent : c.content = some ct)
    (hparts : ct.parts = none ∨ ct.parts = some []) :
    consultHandler folderId question driveList o modelCall =
      ⟨⟨500, .errMsg "Failed to consult Gemini."⟩, true, true⟩ := by
  unfold consultHandler
  rcases hparts with h | h <;>
    simp [hf, hq, hlist, hne, hmodel, extractAnswer, hcand, hcontent, h]

/-- Witness for C10: a concrete consult where the single candidate has
content with an empty parts array ends in the generic 500 error. -/
theorem consult_empty_parts_gives_500_witness :
    consultHandler (some "folderA") (some "what is this") demoList demoOracles
      demoModelEmptyParts =
      ⟨⟨500, ConsultBody.errMsg "Failed to consult Gemini."⟩, true, true⟩ :=
  consult_empty_parts_gives_500 (some "folderA") (some "what is this") demoList
    demoOracles demoModelEmptyParts demoFiles emptyPartsResponse
    ⟨some ⟨some []⟩⟩ [] ⟨some []⟩ rfl rfl rfl (by decide) rfl rfl rfl
    (Or.inr rfl)

/-- The concatenation of rendered blocks, in order. -/
def renderAll : List Block → String
  | [] => ""
  | b :: bs => b.render ++ renderAll bs

/-- Generalised fold lemma: the consult loop starting from any
accumulator appends exactly the rendered blocks of the files. -/
theorem foldl_append_render (o : DriveOracles) (files : List DriveFile)
    (init : String) :
    files.foldl (fun ctx f => ctx ++ (fileBlock o f).render) init =
      init ++ renderAll (files.map (fileBlock o)) := by
  induction files generalizing init with
  | nil => simp [renderAll]
  | cons a l ih => simp [renderAll, ih, String.append_assoc]

/-- The aggregated context string is exactly the rendered block list. -/
theorem buildContext_eq_renderAll (o : DriveOracles) (files : List DriveFile) :
    buildContext o files = renderAll (contextBlocks o files) := by
  unfold buildContext contextBlocks
  rw [foldl_append_render]
  simp

/-- Every loop iteration produces a block labelled with the name of the
processed file, whether it succeeds or fails. -/
theorem fileBlock_fileName (o : DriveOracles) (f : DriveFile) :
    (fileBlock o f).fileName = f.name := by
  unfold fileBlock
  cases extractFileContent o f <;> simp [Block.fileName]

/-- A file whose fetch-and-extract succeeds produces a content block. -/
theorem fileBlock_ok (o : DriveOracles) (f : DriveFile) (s : String)
    (h : extractFileContent o f = .ok s) :
    fileBlock o f = .contentBlock f.name s := by
  unfold fileBlock
  rw [h]

/-- A file whose fetch-and-extract fails produces the placeholder. -/
theorem fileBlock_error (o : DriveOracles) (f : DriveFile)
    (h : extractFileContent o f = .error ()) :
    fileBlock o f = .errorBlock f.name := by
  unfold fileBlock
  rw [h]

/-- A model response whose first candidate carries one text part. -/
def goodResponse : GenResponse := ⟨some [⟨some ⟨some [⟨some "the answer"⟩]⟩⟩]⟩

/-- A model oracle that always returns `goodResponse`. -/
def demoModelGood : String → Except Unit (Option GenResponse) :=
  fun _ => Except.ok (some goodResponse)

/-- Claim C1: when the listing returns the files `pre ++ x :: post` and
fetching or extracting exactly the one file `x` fails while every other
file succeeds, the aggregated context still consists of one block per
listed file — the failing position carries the placeholder block, the
remaining `N - 1` positions carry content blocks — the context string is
exactly those blocks in order, and the request completes with HTTP 200
and the model-derived answer. -/
theorem consult_single_file_failure (folderId question : Option String)
    (driveList : ListParams → Except Unit (Option (List DriveFile)))
    (o : DriveOracles) (modelCall : String → Except Unit (Option GenResponse))
    (pre post : List DriveFile) (x : DriveFile) (files : List DriveFile)
    (r : GenResponse) (ans : Option String)
    (hf : isFalsy folderId = false) (hq : isFalsy question = false)
    (hfiles : files = pre ++ x :: post)
    (hlist : driveList (consultListParams (folderId.getD "")) = .ok (some files))
    (hx : extractFileContent o x = .error ())
    (hpre : ∀ f ∈ pre, ∃ s, extractFileContent o f = .ok s)
    (hpost : ∀ f ∈ post, ∃ s, extractFileContent o f = .ok s)
    (hmodel : modelCall (buildPrompt (question.getD "") (buildContext o files)) =
      .ok (some r))
    (hans : extractAnswer (some r) = .ok ans) :
    (contextBlocks o files).length = files.length ∧
    (contextBlocks o files).countP Block.isError = 1 ∧
    (contextBlocks o files).countP (fun b => !b.isError) = files.length - 1 ∧
    (contextBlocks o files)[pre.length]? = some (Block.errorBlock x.name) ∧
    buildContext o files = renderAll (contextBlocks o files) ∧
    consultHandler folderId question driveList o modelCall =
      ⟨⟨200, .answer ans⟩, true, true⟩ := by
  have hpre0 : (pre.map (fileBlock o)).countP Block.isError = 0 := by
    refine List.countP_eq_zero.mpr ?_
    intro b hb
    rcases List.mem_map.mp hb with ⟨f, hfm, hfb⟩
    rcases hpre f hfm with ⟨s, hs⟩
    rw [← hfb, fileBlock_ok o f s hs]
    simp [Block.isError]
  have hpost0 : (post.map (fileBlock o)).countP Block.isError = 0 := by
    refine List.countP_eq_zero.mpr ?_
    intro b hb
    rcases List.mem_map.mp hb with ⟨f, hfm, hfb⟩
    rcases hpost f hfm with ⟨s, hs⟩
    rw [← hfb, fileBlock_ok o f s hs]
    simp [Block.isError]
  have hxb : fileBlock o x = Block.errorBlock x.name := fileBlock_error o x hx
  have hblocks : contextBlocks o files =
      pre.map (fileBlock o) ++ Block.errorBlock x.name :: post.map (fileBlock o) := by
    subst hfiles
    simp [contextBlocks, hxb]
  have hlen : (contextBlocks o files).length = files.length := by
    simp [contextBlocks]
  have hcount1 : (contextBlocks o files).countP Block.isError = 1 := by
    rw [hblocks, List.countP_append, List.countP_cons, hpre0, hpost0]
    simp [Block.isError]
  have hcount2 : (contextBlocks o files).countP (fun b => !b.isError) =
      files.length - 1 := by
    have htot := List.length_eq_countP_add_countP Block.isError (contextBlocks o files)
    have hconv : (contextBlocks o files).countP (fun b => decide ¬b.isError = true) =
        (contextBlocks o files).countP (fun b => !b.isError) := by
      refine List.countP_congr ?_
      intro b _
      cases b <;> simp [Block.isError]
    rw [hconv] at htot
    omega
  refine ⟨hlen, hcount1, hcount2, ?_, buildContext_eq_renderAll o files, ?_⟩
  · rw [hblocks]
    rw [List.getElem?_append_right (by simp)]
    simp
  · have hne : files ≠ [] := by
      subst hfiles
      simp
    unfold consultHandler
    simp [hf, hq, hlist, hne, hmodel, hans]

/-- Witness for C1 over the two-file demo folder: the text file
succeeds, the PDF fetch fails, the context has two blocks — one content
block and the placeholder at position 1 — and the request returns 200
with the model answer. -/
theorem consult_single_file_failure_witness :
    (contextBlocks demoOracles demoFiles).length = demoFiles.length ∧
    (contextBlocks demoOracles demoFiles).countP Block.isError = 1 ∧
    (contextBlocks demoOracles demoFiles).countP (fun b => !b.isError) =
      demoFiles.length - 1 ∧
    (contextBlocks demoOracles demoFiles)[([fileTxt] : List DriveFile).length]? =
      some (Block.errorBlock filePdf.name) ∧
    buildContext demoOracles demoFiles = renderAll (contextBlocks demoOracles demoFiles) ∧
    consultHandler (some "folderA") (some "what is this") demoList demoOracles
      demoModelGood =
      ⟨⟨200, ConsultBody.answer (some "the answer")⟩, true, true⟩ :=
  consult_single_file_failure (some "folderA") (some "what is this") demoList
    demoOracles demoModelGood [fileTxt] [] filePdf demoFiles goodResponse
    (some "the answer") rfl rfl rfl rfl rfl
    (by
      intro f hf
      rw [List.mem_singleton] at hf
      subst hf
      exact ⟨"hello world", rfl⟩)
    (by
      intro f hf
      exact absurd hf (List.not_mem_nil f))
    rfl rfl

/-- A concrete legacy-format file used in the C6 analysis. -/
def fileDoc : DriveFile := ⟨"idD", "c.doc", mtDoc⟩

/-- Counterexample to C6 as stated: a legacy DOC file is fetched before
the switch dispatches on its type, so when its raw download fails the
per-file catch substitutes the placeholder failure block — not an
empty-bodied content block. -/
theorem doc_fetch_failure_counterexample :
    fileDoc.mimeType = mtDoc ∧
    fileBlock stubOracles fileDoc = Block.errorBlock "c.doc" :=
  ⟨rfl, rfl⟩

/-- Claim C6 (amended): a legacy DOC file whose raw download succeeds
always contributes a content block with empty body — the switch case for
this type performs no extraction and never fails. -/
theorem doc_block_always_empty (o : DriveOracles) (f : DriveFile) (buf : String)
    (hm : f.mimeType = mtDoc) (hfetch : o.fetchMedia f.id = .ok buf) :
    fileBlock o f = .contentBlock f.name "" := by
  have hex : extractFileContent o f = .ok "" := by
    unfold extractFileContent
    rw [hm, hfetch]
    simp [mtDoc, mtGoogleDoc, mtDocx, mtPdf, mtPptx]
  exact fileBlock_ok o f "" hex

/-- Witness for the amended C6: with the demo oracles (whose download
succeeds for this id) the legacy DOC file yields the empty-bodied
content block. -/
theorem doc_block_always_empty_witness :
    fileBlock demoOracles fileDoc = Block.contentBlock "c.doc" "" :=
  doc_block_always_empty demoOracles fileDoc "hello world" rfl rfl

/-- Counterexample to C4 as stated: the consult listing request carries
no `orderBy` at all, while both browsing requests order by
`folder, name` — the consult pipeline does not request the type-then-name
ordering of the browsing endpoints. -/
theorem consult_listing_order_counterexample :
    (consultListParams "folderA").orderBy = none ∧
    (rootListParams "folderA").orderBy = some "folder, name" ∧
    (subfolderListParams "folderA").orderBy = some "folder, name" :=
  ⟨rfl, rfl, rfl⟩

/-- Claim C4 (amended): the browsing listings request the server-side
`folder, name` ordering, the consult listing requests no ordering, and
the aggregated context deterministically follows the listing order it is
given — block `i` is labelled with the name of file `i`. -/
theorem consult_listing_order_amended (folderId : String) (o : DriveOracles)
    (files : List DriveFile) :
    (rootListParams folderId).orderBy = some "folder, name" ∧
    (subfolderListParams folderId).orderBy = some "folder, name" ∧
    (consultListParams folderId).orderBy = none ∧
    (contextBlocks o files).map Block.fileName = files.map DriveFile.name := by
  refine ⟨rfl, rfl, rfl, ?_⟩
  unfold contextBlocks
  rw [List.map_map]
  exact List.map_congr_left fun f _ => fileBlock_fileName o f

/-- A concrete subfolder used in the C7 witness. -/
def folderDocs : DriveFile := ⟨"idF", "docs", mtFolder⟩

/-- A backend listing ordered folders-first then alphabetically. -/
def demoSorted : List DriveFile := [folderDocs, fileTxt, filePdf]

/-- A listing oracle returning the ordered demo listing. -/
def demoSortedList : ListParams → Except Unit (Option (List DriveFile)) :=
  fun _ => Except.ok (some demoSorted)

/-- Claim C7: both browsing handlers pass `orderBy: folder, name` to the
backend and forward the backend array verbatim, so whenever the backend
honours the requested ordering, the children returned by either endpoint
are ordered folders before files, then alphabetically by name. -/
theorem listing_endpoints_preserve_backend_order (rootId folderId : String)
    (driveList : ListParams → Except Unit (Option (List DriveFile)))
    (l1 l2 : List DriveFile)
    (honors : ∀ p l, p.orderBy = some "folder, name" → driveList p = .ok (some l) →
      sortedByFolderName l = true)
    (h1 : driveList (rootListParams rootId) = .ok (some l1))
    (h2 : driveList (subfolderListParams folderId) = .ok (some l2)) :
    rootFilesHandler rootId driveList = ⟨200, .files (some l1)⟩ ∧
    sortedByFolderName l1 = true ∧
    subFilesHandler folderId driveList = ⟨200, .files (some l2)⟩ ∧
    sortedByFolderName l2 = true := by
  refine ⟨?_, honors _ _ rfl h1, ?_, honors _ _ rfl h2⟩
  · unfold rootFilesHandler
    rw [h1]
  · unfold subFilesHandler
    rw [h2]

/-- Witness for C7 with a concrete ordered backend state: a folder
first, then the two files alphabetically. -/
theorem listing_endpoints_preserve_backend_order_witness :
    rootFilesHandler "root1" demoSortedList = ⟨200, BrowseBody.files (some demoSorted)⟩ ∧
    sortedByFolderName demoSorted = true ∧
    subFilesHandler "folderA" demoSortedList = ⟨200, BrowseBody.files (some demoSorted)⟩ ∧
    sortedByFolderName demoSorted = true :=
  listing_endpoints_preserve_backend_order "root1" "folderA" demoSortedList
    demoSorted demoSorted
    (by
      intro p l _ h
      simp only [demoSortedList, Except.ok.injEq, Option.some.injEq] at h
      subst h
      decide)
    rfl rfl

/-- Appending distributes over `toList` (definitionally). -/
theorem toList_append (a b : String) : (a ++ b).toList = a.toList ++ b.toList := rfl

/-- The character list of the one-quote string. -/
theorem quoteStr_toList : quoteStr.toList = [quoteChar] := rfl

/-- Rebuilding a string from its characters is the identity. -/
theorem mk_toList (s : String) : String.mk s.toList = s := by
  obtain ⟨d⟩ := s
  rfl

/-- Reading up to the next quote returns exactly a quote-free prefix. -/
theorem takeUntilQuote_append (l r : List Char) (h : quoteChar ∉ l) :
    takeUntilQuote (l ++ quoteChar :: r) = l := by
  induction l with
  | nil => simp [takeUntilQuote]
  | cons c cs ih =>
    have hc : ¬ c = quoteChar := by
      intro hcq
      apply h
      rw [← hcq]
      exact List.mem_cons_self _ _
    have hcs : quoteChar ∉ cs := fun hm => h (List.mem_cons_of_mem c hm)
    simp [takeUntilQuote, hc, ih hcs]

/-- A string of the shape `quote ++ fid ++ quote ++ rest` with a
quote-free `fid` denotes exactly `fid` as its first quoted literal. -/
theorem firstQuoted_of_toList (s fid : String) (rest : List Char)
    (hdata : s.toList = quoteChar :: (fid.toList ++ quoteChar :: rest))
    (h : quoteChar ∉ fid.toList) :
    firstQuoted s = fid := by
  unfold firstQuoted
  rw [hdata]
  rw [show dropThroughQuote (quoteChar :: (fid.toList ++ quoteChar :: rest)) =
      fid.toList ++ quoteChar :: rest from by simp [dropThroughQuote]]
  rw [takeUntilQuote_append _ _ h, mk_toList]

/-- A folder id containing a single-quote character. -/
def badFolderId : String := "a" ++ quoteStr ++ "b"

/-- Claim C8: both listing query templates interpolate the folder id
verbatim between two single quotes with no escaping; for every
quote-free folder id the query denotes that id as its quoted parent
literal, while for the concrete quote-bearing id `badFolderId` the
denoted parent differs from the id, in the browse and in the consult
query alike. -/
theorem query_verbatim_interpolation (fid : String) (h : quoteChar ∉ fid.toList) :
    browseQuery fid = quoteStr ++ fid ++ quoteStr ++ " in parents and trashed = false" ∧
    consultQuery fid = quoteStr ++ fid ++ quoteStr ++ " in parents and (" ++
      String.intercalate " or " supportedMimeTypes ++ ") and trashed = false" ∧
    firstQuoted (browseQuery fid) = fid ∧
    firstQuoted (consultQuery fid) = fid ∧
    quoteChar ∈ badFolderId.toList ∧
    firstQuoted (browseQuery badFolderId) ≠ badFolderId ∧
    firstQuoted (consultQuery badFolderId) ≠ badFolderId := by
  refine ⟨rfl, rfl, ?_, ?_, by decide, by decide, by decide⟩
  · refine firstQuoted_of_toList _ fid
      (" in parents and trashed = false").toList ?_ h
    simp only [browseQuery, toList_append, quoteStr_toList, List.append_assoc,
      List.singleton_append, List.cons_append, List.nil_append]
  · refine firstQuoted_of_toList _ fid
      ((" in parents and (").toList ++
        ((String.intercalate " or " supportedMimeTypes).toList ++
          (") and trashed = false").toList)) ?_ h
    simp only [consultQuery, toList_append, quoteStr_toList, List.append_assoc,
      List.singleton_append, List.cons_append, List.nil_append]

/-- Witness for C8 at the concrete quote-free folder id `abc123`. -/
theorem query_verbatim_interpolation_witness :
    browseQuery "abc123" = quoteStr ++ "abc123" ++ quoteStr ++
      " in parents and trashed = false" ∧
    consultQuery "abc123" = quoteStr ++ "abc123" ++ quoteStr ++ " in parents and (" ++
      String.intercalate " or " supportedMimeTypes ++ ") and trashed = false" ∧
    firstQuoted (browseQuery "abc123") = "abc123" ∧
    firstQuoted (consultQuery "abc123") = "abc123" ∧
    quoteChar ∈ badFolderId.toList ∧
    firstQuoted (browseQuery badFolderId) ≠ badFolderId ∧
    firstQuoted (consultQuery badFolderId) ≠ badFolderId :=
  query_verbatim_interpolation "abc123" (by decide)
